import Mathlib

/-!
Shallow embedding of `CombinedEnv` from
`Source/Prototypes/PrototypeVer2_ps/combined_env.py`, over exact real
arithmetic.  numpy vectors become functions `Fin N → ℝ`, numpy matrices
become `Fin N → Fin N → ℝ`, and every call to the global numpy random
generator is made explicit as a field of a draw structure passed to
`reset` and `step`.  Variable names follow the Python source (lower-case
names are log-scale quantities, capitalised names are level quantities).
-/

namespace CombinedEnv

/-- Number of agents, `N = 7` in the source. -/
abbrev N : ℕ := 7

noncomputable section

/-- Mirrors `self.ex_int_degree = 1` from `__init__`. -/
def ex_int_degree : ℝ := 1

/-- Mirrors `self.delta = 0.01` from `__init__`. -/
def delta : ℝ := 0.01

/-- Mirrors `self.tau_values = np.array([0.95, 0.90, 0.85, 0.80, 0.75, 0.70, 0.65])`. -/
def tau_values : Fin N → ℝ := ![0.95, 0.90, 0.85, 0.80, 0.75, 0.70, 0.65]

/-- Mirrors `self.kappa = 100` from `__init__`. -/
def kappa : ℝ := 100

/-- Mirrors `self.inf_target = 0.02` from `__init__`. -/
def inf_target : ℝ := 0.02

/-- Mirrors `self.constant = 0.01` from `__init__`. -/
def constant : ℝ := 0.01

/-- Mirrors `self.std_pgdp = 0.1`. -/
def std_pgdp : ℝ := 0.1

/-- Mirrors `self.std_gdp = 0.1`. -/
def std_gdp : ℝ := 0.1

/-- Mirrors `self.std_ppl = 0.1`. -/
def std_ppl : ℝ := 0.1

/-- Mirrors `self.std_pl = 0.1`. -/
def std_pl : ℝ := 0.1

/-- Mirrors `self.std_pne = 0.1`. -/
def std_pne : ℝ := 0.1

/-- Mirrors `self.std_ne = 0.1`. -/
def std_ne : ℝ := 0.1

/-- The mutable fields of a `CombinedEnv` instance that `step` reads or
writes (the numpy arrays set in `reset` and rebound in `step`). -/
structure EnvState where
  prev_gdp : Fin N → ℝ
  gdp : Fin N → ℝ
  one_plus_gdp_growth_rate : Fin N → ℝ
  prev_price_lvl : Fin N → ℝ
  price_lvl : Fin N → ℝ
  one_plus_inf_rate : Fin N → ℝ
  PREV_NET_EX : Fin N → ℝ
  NET_EX : Fin N → ℝ
  affinity : Fin N → Fin N → ℝ
  delta_affinity : Fin N → Fin N → ℝ
  t : ℕ
  agents : List (Fin N)

/-- One joint action: `actions[agent]['eco']` (squeezed to a scalar per
agent) and `actions[agent]['pol']` (a `2N`-vector per agent, read here by
natural-number index as the source slices it). -/
structure Actions where
  eco : Fin N → ℝ
  pol : Fin N → ℕ → ℝ

/-- The random draws `step` consumes from the global numpy generator:
`np.random.choice(self.num_agents, p=invite_prob)` per agent and
`np.random.uniform(size=self.num_agents)` per agent. -/
structure StepDraws where
  invite_choice : Fin N → Fin N
  accept_u : Fin N → Fin N → ℝ

/-- The standard-normal draws `reset` consumes, one `np.random.randn`
vector per initialised variable. -/
structure ResetDraws where
  prev_gdp_z : Fin N → ℝ
  gdp_z : Fin N → ℝ
  prev_pl_z : Fin N → ℝ
  pl_z : Fin N → ℝ
  pne_z : Fin N → ℝ
  ne_z : Fin N → ℝ

/-- Mirrors `self.one_plus_int_rate = 0.20 / (1 + np.exp(-np.array(eco_actions).squeeze()))`. -/
def one_plus_int_rate (a : Actions) (i : Fin N) : ℝ :=
  0.20 / (1 + Real.exp (-(a.eco i)))

/-- Mirrors `self.total_demand = self.gdp - self.one_plus_int_rate`. -/
def total_demand (s : EnvState) (a : Actions) (i : Fin N) : ℝ :=
  s.gdp i - one_plus_int_rate a i

/-- Mirrors `price_diff = self.price_lvl.reshape(-1, 1) - self.price_lvl.reshape(1, -1)`. -/
def price_diff (s : EnvState) (i j : Fin N) : ℝ :=
  s.price_lvl i - s.price_lvl j

/-- Mirrors `int_rate_diff = self.one_plus_int_rate.reshape(-1, 1) - self.one_plus_int_rate.reshape(1, -1)`. -/
def int_rate_diff (a : Actions) (i j : Fin N) : ℝ :=
  one_plus_int_rate a i - one_plus_int_rate a j

/-- Mirrors `self.nom_exchange_rate = price_diff - self.ex_int_degree * int_rate_diff`. -/
def nom_exchange_rate (s : EnvState) (a : Actions) (i j : Fin N) : ℝ :=
  price_diff s i j - ex_int_degree * int_rate_diff a i j

/-- Mirrors `self.real_exchange_rate = - self.ex_int_degree * int_rate_diff`. -/
def real_exchange_rate (a : Actions) (i j : Fin N) : ℝ :=
  - ex_int_degree * int_rate_diff a i j

/-- Mirrors `self.FOR_EXP = (1-self.tau_values) * np.exp(self.total_demand)`. -/
def FOR_EXP (s : EnvState) (a : Actions) (i : Fin N) : ℝ :=
  (1 - tau_values i) * Real.exp (total_demand s a i)

/-- Mirrors `NUM = np.exp(self.real_exchange_rate).T`. -/
def NUM (a : Actions) (i j : Fin N) : ℝ :=
  Real.exp (real_exchange_rate a j i)

/-- Mirrors `DEN = np.sum(NUM, axis=0, keepdims=True)` (column sums). -/
def DEN (a : Actions) (j : Fin N) : ℝ :=
  ∑ i, NUM a i j

/-- Mirrors `self.TRADE_COEFF = NUM / DEN` (each column divided by its sum). -/
def TRADE_COEFF (a : Actions) (i j : Fin N) : ℝ :=
  NUM a i j / DEN a j

/-- Mirrors `TEMP = np.copy(self.TRADE_COEFF); np.fill_diagonal(TEMP, 0)`. -/
def TEMP (a : Actions) (i j : Fin N) : ℝ :=
  if i = j then 0 else TRADE_COEFF a i j

/-- Mirrors `self.EX = TEMP.T @ self.FOR_EXP`. -/
def EX (s : EnvState) (a : Actions) (i : Fin N) : ℝ :=
  ∑ j, TEMP a j i * FOR_EXP s a j

/-- Mirrors `NUM_STAR = np.exp(self.real_exchange_rate)`. -/
def NUM_STAR (a : Actions) (i j : Fin N) : ℝ :=
  Real.exp (real_exchange_rate a i j)

/-- Mirrors `DEN_STAR = np.sum(NUM_STAR, axis=1, keepdims=True)` (row sums). -/
def DEN_STAR (a : Actions) (i : Fin N) : ℝ :=
  ∑ j, NUM_STAR a i j

/-- Mirrors `self.TRADE_COEFF_STAR = NUM_STAR / DEN_STAR` (each row divided by its sum). -/
def TRADE_COEFF_STAR (a : Actions) (i j : Fin N) : ℝ :=
  NUM_STAR a i j / DEN_STAR a i

/-- Mirrors `TEMP_STAR = np.copy(self.TRADE_COEFF_STAR); np.fill_diagonal(TEMP_STAR, 0)`. -/
def TEMP_STAR (a : Actions) (i j : Fin N) : ℝ :=
  if i = j then 0 else TRADE_COEFF_STAR a i j

/-- Mirrors `self.EX_STAR = TEMP_STAR @ self.FOR_EXP`. -/
def EX_STAR (s : EnvState) (a : Actions) (i : Fin N) : ℝ :=
  ∑ j, TEMP_STAR a i j * FOR_EXP s a j

/-- Mirrors `self.IM = np.sum(TEMP, axis=1) * self.FOR_EXP`. -/
def IM (s : EnvState) (a : Actions) (i : Fin N) : ℝ :=
  (∑ j, TEMP a i j) * FOR_EXP s a i

/-- Mirrors `self.NET_EX = self.EX - self.IM` (the value assigned in `step`). -/
def new_NET_EX (s : EnvState) (a : Actions) (i : Fin N) : ℝ :=
  EX s a i - IM s a i

/-- Mirrors `np.mean` of a length-`N` vector. -/
def mean (x : Fin N → ℝ) : ℝ :=
  (∑ i, x i) / (N : ℝ)

/-- Mirrors `np.std` (population standard deviation) of a length-`N` vector. -/
def std (x : Fin N → ℝ) : ℝ :=
  Real.sqrt ((∑ i, (x i - mean x) ^ 2) / (N : ℝ))

/-- Mirrors `np.log(np.exp(self.price_lvl)) + np.log(np.maximum(1e-10, 1 + self.NET_EX/np.exp(self.total_demand))) - self.one_plus_int_rate`,
the price level before standardisation. -/
def price_lvl_raw (s : EnvState) (a : Actions) (i : Fin N) : ℝ :=
  Real.log (Real.exp (s.price_lvl i)) +
    Real.log (max 1e-10 (1 + new_NET_EX s a i / Real.exp (total_demand s a i))) -
    one_plus_int_rate a i

/-- Mirrors `self.price_lvl = (self.price_lvl - np.mean(self.price_lvl)) / np.std(self.price_lvl)`. -/
def new_price_lvl (s : EnvState) (a : Actions) (i : Fin N) : ℝ :=
  (price_lvl_raw s a i - mean (price_lvl_raw s a)) / std (price_lvl_raw s a)

/-- Mirrors `self.one_plus_inf_rate = self.price_lvl - self.prev_price_lvl` with
`prev_price_lvl` rebound to the pre-step price level just before. -/
def new_one_plus_inf_rate (s : EnvState) (a : Actions) (i : Fin N) : ℝ :=
  new_price_lvl s a i - s.price_lvl i

/-- Mirrors `self.GDP = np.exp(self.total_demand) + self.NET_EX`. -/
def new_GDP (s : EnvState) (a : Actions) (i : Fin N) : ℝ :=
  Real.exp (total_demand s a i) + new_NET_EX s a i

/-- Mirrors `self.gdp = np.log(self.GDP)`, the log-GDP before standardisation. -/
def gdp_raw (s : EnvState) (a : Actions) (i : Fin N) : ℝ :=
  Real.log (new_GDP s a i)

/-- Mirrors `self.gdp = (self.gdp - np.mean(self.gdp) + self.constant * self.t) / np.std(self.gdp)`. -/
def new_gdp (s : EnvState) (a : Actions) (i : Fin N) : ℝ :=
  (gdp_raw s a i - mean (gdp_raw s a) + constant * (s.t : ℝ)) / std (gdp_raw s a)

/-- Mirrors `self.one_plus_gdp_growth_rate = self.gdp - self.prev_gdp` with
`prev_gdp` rebound to the pre-step log-GDP just before. -/
def new_one_plus_gdp_growth_rate (s : EnvState) (a : Actions) (i : Fin N) : ℝ :=
  new_gdp s a i - s.gdp i

/-- Mirrors `self.eco_reward = (np.exp(self.one_plus_gdp_growth_rate)-1) - self.kappa * np.square(np.exp(self.one_plus_inf_rate)-1 - self.inf_target)`. -/
def eco_reward (s : EnvState) (a : Actions) (i : Fin N) : ℝ :=
  (Real.exp (new_one_plus_gdp_growth_rate s a i) - 1) -
    kappa * (Real.exp (new_one_plus_inf_rate s a i) - 1 - inf_target) ^ 2

/-- Mirrors `softmax = lambda x : np.exp(x) / np.sum(np.exp(x), axis=0)`. -/
def softmax (x : Fin N → ℝ) (j : Fin N) : ℝ :=
  Real.exp (x j) / ∑ k, Real.exp (x k)

/-- Mirrors `sigmoid = lambda x : 1 / (1 + np.exp(x))` — note the argument of
`np.exp` is `x`, not `-x`, exactly as in the source. -/
def sigmoid (x : ℝ) : ℝ :=
  1 / (1 + Real.exp x)

/-- Mirrors `invite_pref = pol_action[:self.num_agents]`. -/
def invite_pref (a : Actions) (i j : Fin N) : ℝ :=
  a.pol i (j : ℕ)

/-- Mirrors `accept_pref = pol_action[self.num_agents:]`. -/
def accept_pref (a : Actions) (i j : Fin N) : ℝ :=
  a.pol i (N + (j : ℕ))

/-- Mirrors `invite_prob = softmax(invite_pref)`, the categorical distribution
passed to `np.random.choice` as `p=`. -/
def invite_prob (a : Actions) (i : Fin N) : Fin N → ℝ :=
  softmax (invite_pref a i)

/-- Mirrors `accept_prob = sigmoid(accept_pref)`, the Bernoulli success
probability compared against the uniform draws. -/
def accept_prob (a : Actions) (i j : Fin N) : ℝ :=
  sigmoid (accept_pref a i j)

/-- Mirrors `invite = one_hot(invite_choice, depth=self.num_agents); invite[i] = 0`:
row `i` of the stacked `invites` matrix. -/
def invites (d : StepDraws) (i j : Fin N) : ℝ :=
  if j = d.invite_choice i ∧ j ≠ i then 1 else 0

/-- Mirrors `accept = np.random.uniform(size=self.num_agents) < accept_prob; accept[i] = 0`:
row `i` of the stacked `accepts` matrix (booleans cast to 0/1 exactly as
numpy multiplies them below). -/
def accepts (a : Actions) (d : StepDraws) (i j : Fin N) : ℝ :=
  if d.accept_u i j < accept_prob a i j ∧ j ≠ i then 1 else 0

/-- Mirrors `delta_affinity = self.delta * 0.5 * (accepts.T * invites + invites.T * accepts)`
(elementwise products). -/
def new_delta_affinity (a : Actions) (d : StepDraws) (i j : Fin N) : ℝ :=
  delta * 0.5 * (accepts a d j i * invites d i j + invites d j i * accepts a d i j)

/-- Mirrors `self.affinity += delta_affinity`. -/
def new_affinity (s : EnvState) (a : Actions) (d : StepDraws) (i j : Fin N) : ℝ :=
  s.affinity i j + new_delta_affinity a d i j

/-- Row `i` of `np.hstack((self.eco_observation, self.affinity))`, where
`self.eco_observation = np.vstack((self.gdp, self.one_plus_gdp_growth_rate, self.price_lvl, self.one_plus_inf_rate)).T`:
the shared pre-rotation `N × (4+N)` observation matrix. -/
def shared_observation (s : EnvState) (i : Fin N) (c : Fin (4 + N)) : ℝ :=
  if h : (c : ℕ) < 4 then
    ![s.gdp i, s.one_plus_gdp_growth_rate i, s.price_lvl i, s.one_plus_inf_rate i] ⟨c, h⟩
  else
    s.affinity i ⟨(c : ℕ) - 4, by omega⟩

/-- Mirrors `observations[agent] = np.roll(np.hstack((self.eco_observation, self.affinity)), i, axis=0)`:
`np.roll` by `i` along axis 0 sends source row `r - i (mod N)` to row `r`. -/
def agent_observation (s : EnvState) (i : Fin N) (r : Fin N) (c : Fin (4 + N)) : ℝ :=
  shared_observation s (r - i) c

/-- Mirrors `terminations` as returned by `step`: `False` for every agent until
`self.t >= 100` after the increment, then `True` for every agent. -/
def new_terminations (s : EnvState) : Fin N → Bool :=
  fun _ => decide (100 ≤ s.t + 1)

/-- Mirrors `truncations` as returned by `step`, identical to `terminations`. -/
def new_truncations (s : EnvState) : Fin N → Bool :=
  fun _ => decide (100 ≤ s.t + 1)

/-- Mirrors `if all(terminations.values()) or all(truncations.values()): self.agents = []`. -/
def new_agents (s : EnvState) : List (Fin N) :=
  if (∀ i : Fin N, new_terminations s i = true) ∨ (∀ i : Fin N, new_truncations s i = true) then
    []
  else
    s.agents

/-- Everything one `step` call returns (the `infos` dict is empty for
every agent and carries no data). -/
structure StepResult where
  state : EnvState
  observations : Fin N → Fin N → Fin (4 + N) → ℝ
  rewards : Fin N → ℝ
  terminations : Fin N → Bool
  truncations : Fin N → Bool

/-- Mirrors `CombinedEnv.step`: the economic transition (lines 194-228), the
diplomatic phase (lines 231-252), observation building, the
affinity-weighted reward `self.affinity @ self.eco_reward`, the timestep
increment and the horizon check. -/
def step (s : EnvState) (a : Actions) (d : StepDraws) : StepResult :=
  let s' : EnvState :=
    { prev_gdp := s.gdp
      gdp := new_gdp s a
      one_plus_gdp_growth_rate := new_one_plus_gdp_growth_rate s a
      prev_price_lvl := s.price_lvl
      price_lvl := new_price_lvl s a
      one_plus_inf_rate := new_one_plus_inf_rate s a
      PREV_NET_EX := s.NET_EX
      NET_EX := new_NET_EX s a
      affinity := new_affinity s a d
      delta_affinity := new_delta_affinity a d
      t := s.t + 1
      agents := new_agents s }
  { state := s'
    observations := fun i => agent_observation s' i
    rewards := fun i => ∑ j, new_affinity s a d i j * eco_reward s a j
    terminations := new_terminations s
    truncations := new_truncations s }

/-- Mirrors `CombinedEnv.reset`: fresh Gaussian initialisation of the macro
variables, identity affinity, `t = 0`, full agent list.  The `seed`
argument is accepted (as in the Python signature) and, as in the source,
never used: all draws come from the global generator. -/
def resetState (seed : Option ℕ) (rd : ResetDraws) : EnvState :=
  { prev_gdp := fun i => std_pgdp * rd.prev_gdp_z i
    gdp := fun i => std_gdp * rd.gdp_z i
    one_plus_gdp_growth_rate := fun i => std_gdp * rd.gdp_z i - std_pgdp * rd.prev_gdp_z i
    prev_price_lvl := fun i => std_ppl * rd.prev_pl_z i
    price_lvl := fun i => std_pl * rd.pl_z i
    one_plus_inf_rate := fun i => std_pl * rd.pl_z i - std_ppl * rd.prev_pl_z i
    PREV_NET_EX := fun i => Real.exp (std_pne * rd.pne_z i)
    NET_EX := fun i => Real.exp (std_ne * rd.ne_z i)
    affinity := fun i j => if i = j then 1 else 0
    delta_affinity := fun i j => if i = j then 1 else 0
    t := 0
    agents := List.finRange N }

/-- The observations `reset` returns (same rotation as in `step`). -/
def resetObs (seed : Option ℕ) (rd : ResetDraws) :
    Fin N → Fin N → Fin (4 + N) → ℝ :=
  fun i => agent_observation (resetState seed rd) i

/-- Environment state after `reset` followed by `n` calls to `step`,
driving the episode with action sequence `acts` and RNG draws `ds`. -/
def stateAfter (seed : Option ℕ) (rd : ResetDraws) (acts : ℕ → Actions)
    (ds : ℕ → StepDraws) : ℕ → EnvState
  | 0 => resetState seed rd
  | n + 1 => (step (stateAfter seed rd acts ds n) (acts n) (ds n)).state

/-- Return value of the `k`-th `step` call (`k ≥ 1`) after `reset`. -/
def outAt (seed : Option ℕ) (rd : ResetDraws) (acts : ℕ → Actions)
    (ds : ℕ → StepDraws) (k : ℕ) : StepResult :=
  step (stateAfter seed rd acts ds (k - 1)) (acts (k - 1)) (ds (k - 1))

/-- All-zero reset draws, a concrete evaluation point. -/
def zeroResetDraws : ResetDraws :=
  { prev_gdp_z := fun _ => 0
    gdp_z := fun _ => 0
    prev_pl_z := fun _ => 0
    pl_z := fun _ => 0
    pne_z := fun _ => 0
    ne_z := fun _ => 0 }

/-- Reset draws whose log-GDP draw is all ones, a second concrete
evaluation point differing from `zeroResetDraws`. -/
def onesGdpResetDraws : ResetDraws :=
  { zeroResetDraws with gdp_z := fun _ => 1 }

/-- All-zero joint action, a concrete evaluation point. -/
def zeroActions : Actions :=
  { eco := fun _ => 0, pol := fun _ _ => 0 }

/-- All-ones joint action, a concrete evaluation point. -/
def onesActions : Actions :=
  { eco := fun _ => 1, pol := fun _ _ => 1 }

/-- Trivial step draws, a concrete evaluation point. -/
def zeroStepDraws : StepDraws :=
  { invite_choice := fun _ => 0, accept_u := fun _ _ => 0 }

end

/-- The timestep counter equals the number of `step` calls since `reset`. -/
theorem stateAfter_t (seed : Option ℕ) (rd : ResetDraws) (acts : ℕ → Actions)
    (ds : ℕ → StepDraws) (n : ℕ) : (stateAfter seed rd acts ds n).t = n := by
  induction n with
  | zero => rfl
  | succ n ih =>
      show (stateAfter seed rd acts ds n).t + 1 = n + 1
      rw [ih]

/-- Before the horizon the active-agent list is still the full list. -/
theorem stateAfter_agents (seed : Option ℕ) (rd : ResetDraws) (acts : ℕ → Actions)
    (ds : ℕ → StepDraws) (n : ℕ) (h : n < 100) :
    (stateAfter seed rd acts ds n).agents = List.finRange N := by
  induction n with
  | zero => rfl
  | succ n ih =>
      show new_agents (stateAfter seed rd acts ds n) = _
      unfold new_agents new_terminations new_truncations
      rw [stateAfter_t]
      have hn : ¬ (100 ≤ n + 1) := by omega
      simp only [decide_eq_true_eq, hn, forall_const, or_self, if_false]
      exact ih (by omega)

/-- Standardising a vector to zero mean makes its entries sum to zero
(also when the standard deviation vanishes, since `x / 0 = 0` in `ℝ`). -/
theorem sum_new_price_lvl (s : EnvState) (a : Actions) :
    ∑ i, new_price_lvl s a i = 0 := by
  unfold new_price_lvl
  rw [← Finset.sum_div]
  have h0 : ∑ i, (price_lvl_raw s a i - mean (price_lvl_raw s a)) = 0 := by
    rw [Finset.sum_sub_distrib, Finset.sum_const, Finset.card_univ, Fintype.card_fin,
      nsmul_eq_mul, mean]
    push_cast
    ring
  rw [h0, zero_div]

/-- C1: the reward returned for agent `i` is the dot product of row `i`
of the affinity matrix, as updated by this step's diplomatic phase, with
the vector of per-agent economic rewards computed in the same step
(`rewards = self.affinity @ self.eco_reward` after `self.affinity += delta_affinity`). -/
theorem C1_reward_affinity_weighted (s : EnvState) (a : Actions) (d : StepDraws) (i : Fin N) :
    (step s a d).rewards i = ∑ j, (step s a d).state.affinity i j * eco_reward s a j := rfl

/-- C2: for every real economic action the interest-rate proxy
`0.20 / (1 + exp(-a))` lies in `[0, 0.20)`. -/
theorem C2_int_rate_in_range (a : Actions) (i : Fin N) :
    0 ≤ one_plus_int_rate a i ∧ one_plus_int_rate a i < 0.20 := by
  have hx : 0 < Real.exp (-(a.eco i)) := Real.exp_pos _
  have hd : (0:ℝ) < 1 + Real.exp (-(a.eco i)) := by linarith
  constructor
  · exact div_nonneg (by norm_num) (le_of_lt hd)
  · rw [one_plus_int_rate, div_lt_iff₀ hd]
    nlinarith

/-- C3: the export totals computed from the column-normalised
orientation (`TEMP.T @ FOR_EXP`) and from the row-normalised orientation
(`TEMP_STAR @ FOR_EXP`) coincide for every state and action, so the
`assert (self.EX == self.EX_STAR).all()` comparison never fails in exact
arithmetic. -/
theorem C3_exports_agree (s : EnvState) (a : Actions) (i : Fin N) :
    EX s a i = EX_STAR s a i := by
  unfold EX EX_STAR
  refine Finset.sum_congr rfl fun j _ => ?_
  by_cases h : j = i
  · subst h
    simp [TEMP, TEMP_STAR]
  · have h' : i ≠ j := fun e => h e.symm
    simp only [TEMP, TEMP_STAR, if_neg h, if_neg h', TRADE_COEFF, TRADE_COEFF_STAR,
      NUM, NUM_STAR, DEN, DEN_STAR]

/-- C8: the affinity update is entrywise additive with a non-negative
`delta_affinity`, so every affinity entry is non-decreasing across a
step. -/
theorem C8_affinity_nondecreasing (s : EnvState) (a : Actions) (d : StepDraws) (i j : Fin N) :
    0 ≤ new_delta_affinity a d i j ∧
    (step s a d).state.affinity i j = s.affinity i j + new_delta_affinity a d i j ∧
    s.affinity i j ≤ (step s a d).state.affinity i j := by
  have h1 : 0 ≤ accepts a d j i := by unfold accepts; split <;> norm_num
  have h2 : 0 ≤ invites d i j := by unfold invites; split <;> norm_num
  have h3 : 0 ≤ invites d j i := by unfold invites; split <;> norm_num
  have h4 : 0 ≤ accepts a d i j := by unfold accepts; split <;> norm_num
  have hdelta : 0 ≤ new_delta_affinity a d i j := by
    unfold new_delta_affinity delta
    nlinarith
  refine ⟨hdelta, rfl, ?_⟩
  show s.affinity i j ≤ new_affinity s a d i j
  unfold new_affinity
  linarith

/-- C10: the diagonal of `delta_affinity` vanishes (self-invites are
zeroed before aggregation), every step preserves the affinity diagonal,
and along any trajectory from `reset` each diagonal entry stays exactly
`1`. -/
theorem C10_affinity_diag_one (seed : Option ℕ) (rd : ResetDraws) (acts : ℕ → Actions)
    (ds : ℕ → StepDraws) (n : ℕ) (s : EnvState) (a : Actions) (d : StepDraws) (i : Fin N) :
    new_delta_affinity a d i i = 0 ∧
    (step s a d).state.affinity i i = s.affinity i i ∧
    (stateAfter seed rd acts ds n).affinity i i = 1 := by
  have key : ∀ (a' : Actions) (d' : StepDraws), new_delta_affinity a' d' i i = 0 := by
    intro a' d'
    unfold new_delta_affinity invites
    simp
  refine ⟨key a d, ?_, ?_⟩
  · show new_affinity s a d i i = s.affinity i i
    unfold new_affinity
    rw [key]
    ring
  · induction n with
    | zero => simp [stateAfter, resetState]
    | succ n ih =>
        show new_affinity _ _ _ i i = 1
        unfold new_affinity
        rw [key, ih]
        ring

/-- C4: for the `k`-th `step` call after `reset` (`1 ≤ k ≤ 100`), the
returned terminations and truncations are all false and the agent list
stays full while `k < 100`, and at exactly `k = 100` every flag is true
and the agent list becomes empty. -/
theorem C4_horizon (seed : Option ℕ) (rd : ResetDraws) (acts : ℕ → Actions)
    (ds : ℕ → StepDraws) (k : ℕ) (i : Fin N) (h1 : 1 ≤ k) (h2 : k ≤ 100) :
    (outAt seed rd acts ds k).terminations i = decide (k = 100) ∧
    (outAt seed rd acts ds k).truncations i = decide (k = 100) ∧
    (outAt seed rd acts ds k).state.agents =
      (if k = 100 then [] else List.finRange N) := by
  have ht : (stateAfter seed rd acts ds (k - 1)).t = k - 1 :=
    stateAfter_t seed rd acts ds (k - 1)
  have hterm : (outAt seed rd acts ds k).terminations i = decide (k = 100) := by
    show new_terminations (stateAfter seed rd acts ds (k - 1)) i = _
    unfold new_terminations
    rw [ht]
    exact decide_eq_decide.mpr (by omega)
  have htrunc : (outAt seed rd acts ds k).truncations i = decide (k = 100) := by
    show new_truncations (stateAfter seed rd acts ds (k - 1)) i = _
    unfold new_truncations
    rw [ht]
    exact decide_eq_decide.mpr (by omega)
  refine ⟨hterm, htrunc, ?_⟩
  show new_agents (stateAfter seed rd acts ds (k - 1)) = _
  unfold new_agents new_terminations new_truncations
  rw [ht]
  by_cases hk : k = 100
  · subst hk
    norm_num
  · have hlt : ¬ (100 ≤ (k - 1) + 1) := by omega
    simp only [decide_eq_true_eq, hlt, forall_const, or_self, if_false, if_neg hk]
    exact stateAfter_agents seed rd acts ds (k - 1) (by omega)

/-- Witness for C4 at the 100th step of a concrete zero-input episode. -/
theorem C4_horizon_witness :
    (outAt none zeroResetDraws (fun _ => zeroActions) (fun _ => zeroStepDraws) 100).terminations 0
        = decide (100 = 100) ∧
    (outAt none zeroResetDraws (fun _ => zeroActions) (fun _ => zeroStepDraws) 100).truncations 0
        = decide (100 = 100) ∧
    (outAt none zeroResetDraws (fun _ => zeroActions) (fun _ => zeroStepDraws) 100).state.agents
        = (if 100 = 100 then [] else List.finRange N) :=
  C4_horizon none zeroResetDraws (fun _ => zeroActions) (fun _ => zeroStepDraws) 100 0
    (by norm_num) (by norm_num)

/-- C5 counterexample: at the concrete post-reset state with all-zero
draws and all-zero actions, the step's economic reward cannot equal the
claimed formula `(exp(growth) - 1) - kappa * (exp(inflation) - target)^2`
for every agent: that would force `exp(inflation_i) = 0.52` for each
agent, while the standardised price levels (hence the inflation entries,
the old price level being zero) sum to `0`, giving `log 0.52 = 0`. -/
theorem C5_formula_counterexample :
    ¬ (∀ i : Fin N,
        eco_reward (resetState none zeroResetDraws) zeroActions i =
          (Real.exp (new_one_plus_gdp_growth_rate (resetState none zeroResetDraws) zeroActions i) - 1) -
            kappa * (Real.exp (new_one_plus_inf_rate (resetState none zeroResetDraws) zeroActions i)
              - inf_target) ^ 2) := by
  intro h
  have hx : ∀ i : Fin N,
      Real.exp (new_one_plus_inf_rate (resetState none zeroResetDraws) zeroActions i) = 0.52 := by
    intro i
    have hi := h i
    unfold eco_reward kappa inf_target at hi
    ring_nf at hi
    linarith
  have hlog : ∀ i : Fin N,
      new_one_plus_inf_rate (resetState none zeroResetDraws) zeroActions i = Real.log 0.52 := by
    intro i
    rw [← hx i, Real.log_exp]
  have hsum : ∑ i, new_one_plus_inf_rate (resetState none zeroResetDraws) zeroActions i = 0 := by
    unfold new_one_plus_inf_rate
    rw [Finset.sum_sub_distrib, sum_new_price_lvl]
    have hp : ∀ i : Fin N, (resetState none zeroResetDraws).price_lvl i = 0 := by
      intro i
      show std_pl * zeroResetDraws.pl_z i = 0
      simp [zeroResetDraws]
    simp [hp]
  rw [Finset.sum_congr rfl fun i _ => hlog i, Finset.sum_const, Finset.card_univ,
    Fintype.card_fin, nsmul_eq_mul] at hsum
  have hl : Real.log 0.52 = 0 := by
    push_cast at hsum
    linarith
  have he : Real.exp (Real.log 0.52) = 0.52 := Real.exp_log (by norm_num)
  rw [hl, Real.exp_zero] at he
  norm_num at he

/-- C5 amended: the per-agent economic reward equals
`(exp(growth_rate_i) - 1) - kappa * (exp(inflation_i) - 1 - target_inflation)^2`
(the realised inflation is `exp(one_plus_inf_rate) - 1`, so the penalty
subtracts `1` before comparing with the target). -/
theorem C5_eco_reward_formula (s : EnvState) (a : Actions) (i : Fin N) :
    eco_reward s a i =
      (Real.exp (new_one_plus_gdp_growth_rate s a i) - 1) -
        kappa * (Real.exp (new_one_plus_inf_rate s a i) - 1 - inf_target) ^ 2 := rfl

/-- C6 counterexample: at the post-reset state (all-zero draws), row `0`
of agent `1`'s pre-flattening observation matrix is not agent `1`'s own
row of the shared matrix: column `5` carries `affinity[6, 1] = 0` in
agent `1`'s first row, while agent `1`'s own row has `affinity[1, 1] = 1`. -/
theorem C6_own_row_first_counterexample :
    resetObs none zeroResetDraws 1 0 ⟨5, by decide⟩ ≠
      shared_observation (resetState none zeroResetDraws) 1 ⟨5, by decide⟩ := by
  show agent_observation (resetState none zeroResetDraws) 1 0 ⟨5, by decide⟩ ≠ _
  unfold agent_observation
  have e1 : ((0 : Fin N) - 1) = (6 : Fin N) := by decide
  rw [e1]
  have hL : shared_observation (resetState none zeroResetDraws) 6 ⟨5, by decide⟩ =
      (resetState none zeroResetDraws).affinity 6 ⟨1, by decide⟩ := rfl
  have hR : shared_observation (resetState none zeroResetDraws) 1 ⟨5, by decide⟩ =
      (resetState none zeroResetDraws).affinity 1 ⟨1, by decide⟩ := rfl
  rw [hL, hR]
  show (if (6 : Fin N) = ⟨1, by decide⟩ then (1:ℝ) else 0) ≠
    (if (1 : Fin N) = ⟨1, by decide⟩ then (1:ℝ) else 0)
  rw [if_neg (by decide), if_pos (by decide)]
  norm_num

/-- C6 amended: at every step and at reset, agent `i`'s pre-flattening
observation matrix is the `np.roll`-by-`i` row rotation of agent `0`'s
matrix (row `r` of agent `i`'s view is row `r - i (mod N)` of the shared
matrix), and agent `i`'s own row appears at row index `2·i (mod N)` of
its view — not first. -/
theorem C6_observation_rotation (seed : Option ℕ) (rd : ResetDraws) (s : EnvState)
    (a : Actions) (d : StepDraws) (i r : Fin N) (c : Fin (4 + N)) :
    (step s a d).observations i r c = (step s a d).observations 0 (r - i) c ∧
    resetObs seed rd i r c = resetObs seed rd 0 (r - i) c ∧
    (step s a d).observations i (i + i) c = shared_observation (step s a d).state i c := by
  refine ⟨?_, ?_, ?_⟩
  · show agent_observation _ i r c = agent_observation _ 0 (r - i) c
    unfold agent_observation
    rw [sub_zero]
  · show agent_observation _ i r c = agent_observation _ 0 (r - i) c
    unfold agent_observation
    rw [sub_zero]
  · show agent_observation _ i (i + i) c = shared_observation _ i c
    unfold agent_observation
    rw [add_sub_cancel_right]
    rfl

/-- C7: the acceptance probability the code feeds to the Bernoulli draw
is `sigmoid(x) = 1 / (1 + exp(x))`, which at accept-preference `1`
differs from the logistic `1 / (1 + exp(-1))` and is below its value at
preference `0`: the code's acceptance probability is decreasing in the
accept-preference, not increasing.  The invite half of the claim does
hold: the invite distribution is the softmax of the invite preferences. -/
theorem C7_accept_prob_flipped :
    accept_prob onesActions 0 1 = 1 / (1 + Real.exp 1) ∧
    accept_prob onesActions 0 1 ≠ 1 / (1 + Real.exp (-1)) ∧
    accept_prob onesActions 0 1 < accept_prob zeroActions 0 1 ∧
    invite_prob onesActions 0 1 =
      Real.exp (invite_pref onesActions 0 1) / ∑ k, Real.exp (invite_pref onesActions 0 k) := by
  refine ⟨rfl, ?_, ?_, rfl⟩
  · intro heq
    have h1 : (1:ℝ) + Real.exp 1 ≠ 0 := by positivity
    have h2 : (1:ℝ) + Real.exp (-1) ≠ 0 := by positivity
    have heq' : (1:ℝ) / (1 + Real.exp 1) = 1 / (1 + Real.exp (-1)) := heq
    rw [div_eq_div_iff h1 h2] at heq'
    have hee : Real.exp 1 = Real.exp (-1) := by linarith
    have := Real.exp_eq_exp.mp hee
    norm_num at this
  · show sigmoid (onesActions.pol 0 (N + 1)) < sigmoid (zeroActions.pol 0 (N + 1))
    have hpol1 : onesActions.pol 0 (N + 1) = 1 := rfl
    have hpol0 : zeroActions.pol 0 (N + 1) = 0 := rfl
    rw [hpol1, hpol0]
    unfold sigmoid
    rw [Real.exp_zero]
    have he : (1:ℝ) + 1 < 1 + Real.exp 1 := by
      have := Real.exp_one_gt_d9
      linarith
    exact one_div_lt_one_div_of_lt (by norm_num) he

/-- C9 counterexample: two `reset` calls with the same seed but
different global-RNG draw streams return different observations — the
seed alone does not determine the outcome. -/
theorem C9_same_seed_different_draws :
    resetObs (some 0) zeroResetDraws 0 0 ⟨0, by decide⟩ ≠
      resetObs (some 0) onesGdpResetDraws 0 0 ⟨0, by decide⟩ := by
  show agent_observation (resetState (some 0) zeroResetDraws) 0 0 ⟨0, by decide⟩ ≠
    agent_observation (resetState (some 0) onesGdpResetDraws) 0 0 ⟨0, by decide⟩
  unfold agent_observation
  have e0 : ((0 : Fin N) - 0) = (0 : Fin N) := by decide
  rw [e0]
  have hL : shared_observation (resetState (some 0) zeroResetDraws) 0 ⟨0, by decide⟩ =
      (resetState (some 0) zeroResetDraws).gdp 0 := rfl
  have hR : shared_observation (resetState (some 0) onesGdpResetDraws) 0 ⟨0, by decide⟩ =
      (resetState (some 0) onesGdpResetDraws).gdp 0 := rfl
  rw [hL, hR]
  show std_gdp * zeroResetDraws.gdp_z 0 ≠ std_gdp * onesGdpResetDraws.gdp_z 0
  unfold std_gdp zeroResetDraws onesGdpResetDraws
  norm_num

/-- C9 amended: the simulation is a deterministic function of the
underlying RNG draw stream (and the actions), but `reset` ignores its
`seed` argument entirely, so any two seeds produce identical states and
observations for the same draws. -/
theorem C9_reset_ignores_seed (seed1 seed2 : Option ℕ) (rd : ResetDraws) :
    resetState seed1 rd = resetState seed2 rd ∧ resetObs seed1 rd = resetObs seed2 rd :=
  ⟨rfl, rfl⟩

end CombinedEnv
